import Mathlib

/-!
Shallow embedding of the event-to-playback pipeline of the tiktokAudioGift
repository, covering:

* `src/electron/services/overlay.ts` — the `OverlayServer` class: audio-file
  token registration, the queue/batch progress tracker (`playAudio`, the
  `audio-ended` WebSocket message handler, `clearQueue`, `getQueueProgress`)
  and the per-IP HTTP rate-limit middleware;
* `src/electron/services/tiktok.ts` — the gift deduplicator
  (`isDuplicateGift`);
* `src/electron/main.ts` — the `giftFinal` handler of `setupTikTokEvents`
  (mapping lookup, random playlist selection, volume/duration resolution,
  and the capped `setInterval` repeat scheduler);
* `src/electron/services/storage.ts` — the storage getters/setters the
  handler consults (`getGiftAudio`, `getAudioVolume`, `setAudioVolume`,
  `getAudioDuration`, `getGiftName`).

JavaScript numbers are modelled as `ℚ` (volumes, durations) or `ℤ`
(millisecond timestamps); JS integer counters as `ℕ`.  Fallible lookups
return `Option`.  Mutation is explicit state passing.
-/

/-- JS `Math.round`: round half toward positive infinity, `⌊x + 1/2⌋`. -/
def jsRound (q : ℚ) : ℤ := Rat.floor (q + 1/2)

/-- First-match association-list lookup; models `Map.get` / JS object key
lookup (string keys). -/
def alookup {α : Type} (k : String) : List (String × α) → Option α
  | [] => none
  | (k2, v) :: rest => if k = k2 then some v else alookup k rest

/-- Models `p.split(/[/\\]/).pop() || ''`: the substring of `p` after the
last `/` or `\` separator. -/
def lastComponent (p : String) : String :=
  String.mk ((p.data.reverse.takeWhile (fun c => c ≠ '/' ∧ c ≠ '\\')).reverse)

/-- Models `filename.replace(/\.[^/.]+$/, "")`: drop a final `.ext` suffix
where `ext` is a nonempty run of characters other than `.` and `/`. -/
def stripExt (f : String) : String :=
  let r := f.data.reverse
  let ext := r.takeWhile (fun c => c ≠ '.' ∧ c ≠ '/')
  match r.drop ext.length with
  | '.' :: rest => if ext.isEmpty then f else String.mk rest.reverse
  | _ => f

/-- The allowed audio extensions of `overlay.ts` (`mp3|wav|ogg|m4a|flac`). -/
def audioExts : List (List Char) :=
  [".mp3".data, ".wav".data, ".ogg".data, ".m4a".data, ".flac".data]

/-- Models the test `/\.(mp3|wav|ogg|m4a|flac)$/i.test(audioPath)` in
`OverlayServer.registerAudioFile`: case-insensitive audio-extension suffix. -/
def isAudioFile (p : String) : Bool :=
  let lower := p.data.map Char.toLower
  audioExts.any (fun ext => ext.isSuffixOf lower)

/-- UTF-8 encoding of one code point (what `Buffer.from(string)` does
byte-wise). -/
def utf8Char (c : Char) : List ℕ :=
  let n := c.toNat
  if n < 128 then [n]
  else if n < 2048 then [192 + n / 64, 128 + n % 64]
  else if n < 65536 then [224 + n / 4096, 128 + n / 64 % 64, 128 + n % 64]
  else [240 + n / 262144, 128 + n / 4096 % 64, 128 + n / 64 % 64, 128 + n % 64]

/-- UTF-8 bytes of a string. -/
def utf8Encode (s : String) : List ℕ := (s.data.map utf8Char).flatten

/-- The base64url alphabet (RFC 4648 §5), as used by
`Buffer.toString('base64url')`. -/
def b64Char (n : ℕ) : Char :=
  if n < 26 then Char.ofNat (65 + n)
  else if n < 52 then Char.ofNat (97 + (n - 26))
  else if n < 62 then Char.ofNat (48 + (n - 52))
  else if n = 62 then '-' else '_'

/-- base64url encoding, unpadded, three input bytes per four output
characters (Node's `base64url` encoding). -/
def base64urlEncode : List ℕ → List Char
  | [] => []
  | [b1] => [b64Char (b1 / 4), b64Char (b1 % 4 * 16)]
  | [b1, b2] => [b64Char (b1 / 4), b64Char (b1 % 4 * 16 + b2 / 16), b64Char (b2 % 16 * 4)]
  | b1 :: b2 :: b3 :: rest =>
    b64Char (b1 / 4) :: b64Char (b1 % 4 * 16 + b2 / 16) ::
    b64Char (b2 % 16 * 4 + b3 / 64) :: b64Char (b3 % 64) :: base64urlEncode rest

/-- `Buffer.from(audioPath).toString('base64url')`: the opaque token id
derived from a file path in `registerAudioFile`. -/
def encodeToken (p : String) : String := String.mk (base64urlEncode (utf8Encode p))

/-- Messages broadcast by `OverlayServer.broadcast` over the WebSocket
channel (`play-audio` and `clear-queue`). -/
inductive OverlayMsg
  | playAudioCmd (audioUrl : String) (volume : ℚ) (giftName username giftId : String)
  | clearQueueCmd
deriving DecidableEq

/-- The mutable fields of `OverlayServer` relevant to the pipeline:
`audioFiles` (token id → absolute path), the batch counters and the
duration bookkeeping. -/
structure OverlayState where
  queueSize : ℕ
  totalInBatch : ℕ
  currentPlaying : ℕ
  totalDurationPlayed : ℚ
  audioCount : ℕ
  pendingDurations : List ℚ
  audioFiles : List (String × String)
deriving DecidableEq

/-- The `OverlayServer` fields at construction time. -/
def overlayInit : OverlayState :=
  { queueSize := 0, totalInBatch := 0, currentPlaying := 0
    totalDurationPlayed := 0, audioCount := 0, pendingDurations := []
    audioFiles := [] }

/-- `OverlayServer.registerAudioFile`: reject non-audio extensions with the
empty string; otherwise map the base64url token of the path to the path and
return `/audio/<id>`. -/
def registerAudioFile (st : OverlayState) (audioPath : String) : String × OverlayState :=
  if isAudioFile audioPath then
    let id := encodeToken audioPath
    ("/audio/" ++ id, { st with audioFiles := (id, audioPath) :: st.audioFiles })
  else
    ("", st)

/-- The lookup table consultation of the `GET /audio/:id` handler
(`this.audioFiles.get(id)`); `none` is the 404 "Audio not found" branch. -/
def lookupAudio (st : OverlayState) (id : String) : Option String :=
  alookup id st.audioFiles

/-- `OverlayServer.playAudio`: register the file, broadcast the play
command, then update the batch counters (`wasEmpty` starts a new batch). -/
def playAudio (st : OverlayState) (giftId giftName username audioPath : String)
    (volume duration : ℚ) : OverlayState × List OverlayMsg :=
  let reg := registerAudioFile st audioPath
  let msg := OverlayMsg.playAudioCmd reg.1 volume giftName username giftId
  let st1 := reg.2
  let wasEmpty := st1.queueSize = 0
  let st2 := { st1 with queueSize := st1.queueSize + 1
                        pendingDurations := st1.pendingDurations ++ [duration] }
  let st3 :=
    if wasEmpty then { st2 with totalInBatch := 1, currentPlaying := 0 }
    else { st2 with totalInBatch := st2.totalInBatch + 1 }
  (st3, [msg])

/-- The duration-tracking block at the top of the `audio-ended` handler:
`if (msg.duration && typeof msg.duration === 'number')` accumulates
`totalDurationPlayed` and `audioCount`.  `duration = some d` with `d ≠ 0`
models `msg.duration` being a truthy number (a reported duration of `0`
is falsy in JS and is skipped, as is an absent duration). -/
def trackDuration (st : OverlayState) : Option ℚ → OverlayState
  | some d =>
    if d ≠ 0 then
      { st with totalDurationPlayed := st.totalDurationPlayed + d
                audioCount := st.audioCount + 1 }
    else st
  | none => st

/-- The `audio-ended` WebSocket message handler of `OverlayServer.start`:
track the duration, shift the pending-duration FIFO (`List.tail` models
the guarded `shift()`), decrement the queue (`Math.max(0, q - 1)` is
truncated `ℕ` subtraction), advance `currentPlaying`, and reset every
batch field when the queue drained to zero. -/
def audioEnded (st : OverlayState) (duration : Option ℚ) : OverlayState :=
  let st1 := trackDuration st duration
  let st2 := { st1 with pendingDurations := st1.pendingDurations.tail
                        queueSize := st1.queueSize - 1
                        currentPlaying := st1.currentPlaying + 1 }
  if st2.queueSize = 0 then
    { st2 with currentPlaying := 0, totalInBatch := 0
               totalDurationPlayed := 0, audioCount := 0, pendingDurations := [] }
  else st2

/-- `OverlayServer.clearQueue`: broadcast `clear-queue` and zero only
`queueSize`. -/
def clearQueue (st : OverlayState) : OverlayState × List OverlayMsg :=
  ({ st with queueSize := 0 }, [OverlayMsg.clearQueueCmd])

/-- The record returned by `OverlayServer.getQueueProgress`. -/
structure QueueProgress where
  current : ℕ
  total : ℕ
  remaining : ℕ
  estimatedSeconds : ℤ
deriving DecidableEq

/-- `OverlayServer.getQueueProgress`: `estimatedSeconds` is
`Math.round(pendingDurations.reduce((a, b) => a + b, 0))`. -/
def getQueueProgress (st : OverlayState) : QueueProgress :=
  { current := st.currentPlaying
    total := st.totalInBatch
    remaining := st.queueSize
    estimatedSeconds := jsRound (st.pendingDurations.foldl (· + ·) 0) }

/-- The operations that mutate the overlay queue state. -/
inductive OvOp
  | play (giftId giftName username audioPath : String) (volume duration : ℚ)
  | ended (duration : Option ℚ)
  | clear
deriving DecidableEq

/-- Whether an operation is a `playAudio` call. -/
def OvOp.isPlay : OvOp → Bool
  | .play _ _ _ _ _ _ => true
  | _ => false

/-- Whether an operation is an `audio-ended` message. -/
def OvOp.isEnded : OvOp → Bool
  | .ended _ => true
  | _ => false

/-- One overlay-state transition. -/
def ovStep (st : OverlayState) : OvOp → OverlayState
  | .play gid gname uname p v d => (playAudio st gid gname uname p v d).1
  | .ended d => audioEnded st d
  | .clear => (clearQueue st).1

/-- Run a sequence of operations from a given state. -/
def runFrom (st : OverlayState) (ops : List OvOp) : OverlayState :=
  ops.foldl ovStep st

/-- Run a sequence of operations from the freshly constructed server. -/
def runOps (ops : List OvOp) : OverlayState := runFrom overlayInit ops

/-- A `GiftEvent` as produced by `tiktok.ts` (`giftCount` there is
`data.repeatCount || 1`, hence at least 1 for events coming from the feed). -/
structure GiftEvent where
  userId : String
  username : String
  nickname : String
  giftId : String
  giftName : String
  giftCount : ℕ
  diamondCount : ℕ
  isComboEnd : Bool
deriving DecidableEq

/-- One element of `GiftAudioMapping.audioFiles` in `main.ts`, which may be
either a legacy bare path string or a `{path, volume}` record
(`typeof selectedAudio === 'string'` distinguishes them). -/
inductive AudioFileRef
  | legacyPath (p : String)
  | entry (p : String) (volume : ℚ)
deriving DecidableEq

/-- The path used for playback from either shape of playlist element. -/
def AudioFileRef.path : AudioFileRef → String
  | .legacyPath p => p
  | .entry p _ => p

/-- A `GiftAudioMapping` of `storage.ts`. -/
structure GiftAudioMapping where
  giftId : String
  giftName : String
  audioPath : Option String
  audioFiles : List AudioFileRef
  enabled : Bool
deriving DecidableEq

/-- A cached gift (`CachedGift` of `storage.ts`): numeric id and name. -/
structure CachedGift where
  id : ℤ
  name : String
deriving DecidableEq

/-- The slice of the `electron-store` state consulted by the `giftFinal`
handler. -/
structure StorageState where
  giftAudioMappings : List (String × GiftAudioMapping)
  globalVolume : ℚ
  audioFileVolumes : List (String × ℚ)
  audioFileDurations : List (String × ℚ)
  cachedGifts : List CachedGift
deriving DecidableEq

/-- `StorageService.getGiftAudio`: `mappings[giftId]`. -/
def getGiftAudio (st : StorageState) (giftId : String) : Option GiftAudioMapping :=
  alookup giftId st.giftAudioMappings

/-- `StorageService.getAudioVolume`: `volumes[id] ?? 1.0`. -/
def getAudioVolume (st : StorageState) (id : String) : ℚ :=
  (alookup id st.audioFileVolumes).getD 1

/-- `StorageService.setAudioVolume`: stores
`Math.max(0, Math.min(1, volume))`. -/
def setAudioVolume (st : StorageState) (id : String) (volume : ℚ) : StorageState :=
  { st with audioFileVolumes := (id, max 0 (min 1 volume)) :: st.audioFileVolumes }

/-- `StorageService.getAudioDuration`: `durations[audioId]`. -/
def getAudioDuration (st : StorageState) (audioId : String) : Option ℚ :=
  alookup audioId st.audioFileDurations

/-- `StorageService.getGiftName`: find a cached gift whose
`id.toString()` equals the gift id string. -/
def getGiftName (st : StorageState) (giftId : String) : Option String :=
  (st.cachedGifts.find? (fun g => toString g.id = giftId)).map CachedGift.name

/-- One `overlayServer.playAudio(...)` dispatch issued by the `giftFinal`
handler, tagged with its scheduling offset in milliseconds. -/
structure Dispatch where
  time : ℕ
  giftId : String
  giftName : String
  username : String
  path : String
  volume : ℚ
  duration : ℚ
deriving DecidableEq

/-- What one `giftFinal` event produces: the enriched event sent to the
renderer over `tiktok:gift`, and the play dispatches. -/
structure HandlerResult where
  surfaced : List GiftEvent
  dispatches : List Dispatch
deriving DecidableEq

/-- The audio-path resolution in the `giftFinal` handler:
`audioPathToPlay` starts as `mapping.audioPath`, is overwritten by a
uniform random playlist pick when `audioFiles` is nonempty
(`Math.floor(Math.random() * length)` modelled as `r % length`), and the
guard `if (audioPathToPlay)` treats the empty string as unplayable. -/
def resolveAudioPath (m : GiftAudioMapping) (r : ℕ) : Option String :=
  let p? :=
    if m.audioFiles.length > 0 then
      (m.audioFiles.get? (r % m.audioFiles.length)).map AudioFileRef.path
    else m.audioPath
  match p? with
  | some p => if p = "" then none else some p
  | none => none

/-- The gift name enrichment at the top of the `giftFinal` handler: a
placeholder name "Gift" is replaced by the cached name when available. -/
def enrichGift (storage : StorageState) (event : GiftEvent) : GiftEvent :=
  let giftName :=
    if event.giftName = "Gift" then (getGiftName storage event.giftId).getD event.giftName
    else event.giftName
  { event with giftName := giftName }

/-- The body of one `setInterval` repetition callback in the `giftFinal`
handler: for playlists with more than one element it re-draws (draw
`rnd k`) and re-resolves that path's library volume; otherwise it replays
the initial path at the initial volume; the duration is looked up for the
chosen path; the callback with counter `played = k` fires at `k * 250` ms. -/
def nextDispatch (storage : StorageState) (m : GiftAudioMapping) (rnd : ℕ → ℕ)
    (giftId giftName username p : String) (finalVolume : ℚ) (k : ℕ) : Dispatch :=
  let next : String × ℚ :=
    if m.audioFiles.length > 1 then
      let np := ((m.audioFiles.get? (rnd k % m.audioFiles.length)).map AudioFileRef.path).getD p
      (np, getAudioVolume storage (stripExt (lastComponent np)) * storage.globalVolume)
    else (p, finalVolume)
  let nextDuration := (getAudioDuration storage (stripExt (lastComponent next.1))).getD 0
  { time := k * 250, giftId := giftId, giftName := giftName, username := username
    path := next.1, volume := next.2, duration := nextDuration }

/-- The `setInterval` loop of the `giftFinal` handler, firing with counter
values `played = 1, 2, ...`; each firing first checks
`played >= repeatCount` and stops (`clearInterval`), otherwise dispatches
and increments `played`.  `fuel` bounds the number of timer firings
modelled; any `fuel ≥ repeatCount - played` yields the full run. -/
def intervalTicks (mk : ℕ → Dispatch) (repeatCount : ℕ) : (played : ℕ) → (fuel : ℕ) → List Dispatch
  | _, 0 => []
  | played, fuel + 1 =>
    if played ≥ repeatCount then []
    else mk played :: intervalTicks mk repeatCount (played + 1) fuel

/-- The `giftFinal` handler of `setupTikTokEvents` in `main.ts`:
surface the enriched event; look up the mapping; if present and enabled,
resolve a path, its library volume (keyed by the filename without its
extension) and duration, compute `finalVolume = audioVolume * globalVolume`
with no clamping, and dispatch `min(giftCount, 20)` plays — one
immediately at offset 0, the rest through the 250 ms interval loop.
`rnd k` supplies the `k`-th `Math.random()` draw already reduced to an
index bound (`rnd k % length` is used). -/
def giftFinalHandler (storage : StorageState) (rnd : ℕ → ℕ) (event : GiftEvent) : HandlerResult :=
  let enriched := enrichGift storage event
  match getGiftAudio storage event.giftId with
  | none => { surfaced := [enriched], dispatches := [] }
  | some m =>
    if m.enabled then
      match resolveAudioPath m (rnd 0) with
      | none => { surfaced := [enriched], dispatches := [] }
      | some p =>
        let audioId := stripExt (lastComponent p)
        let audioDuration := (getAudioDuration storage audioId).getD 0
        let finalVolume := getAudioVolume storage audioId * storage.globalVolume
        let repeatCount := min event.giftCount 20
        let first : Dispatch :=
          { time := 0, giftId := event.giftId, giftName := enriched.giftName
            username := event.nickname, path := p, volume := finalVolume
            duration := audioDuration }
        let rest :=
          if repeatCount > 1 then
            intervalTicks
              (nextDispatch storage m rnd event.giftId enriched.giftName event.nickname p finalVolume)
              repeatCount 1 repeatCount
          else []
        { surfaced := [enriched], dispatches := first :: rest }
    else { surfaced := [enriched], dispatches := [] }

/-- The `recentGifts` map of `TikTokService`: dedup key → last-seen
timestamp (ms). -/
def DedupState : Type := List (String × ℤ)

/-- The dedup key `` `${userId}-${giftId}-${repeatCount}` ``. -/
def dedupKey (userId giftId : String) (repeatCount : ℕ) : String :=
  userId ++ "-" ++ giftId ++ "-" ++ toString repeatCount

/-- `TikTokService.isDuplicateGift`.  The JS guard
`if (lastSeen && now - lastSeen < this.DEDUP_WINDOW_MS)` is truthiness on
`lastSeen`, so a recorded timestamp of exactly `0` is treated as absent.
On a duplicate the timestamp is left unchanged; otherwise `now` is
recorded.  Returns `(isDuplicate, newState)`; the gift handler forwards
the event exactly when the first component is `false`. -/
def isDuplicateGift (st : DedupState) (userId giftId : String) (repeatCount : ℕ)
    (now : ℤ) : Bool × DedupState :=
  let key := dedupKey userId giftId repeatCount
  match alookup key st with
  | some lastSeen =>
    if lastSeen ≠ 0 ∧ now - lastSeen < 5000 then (true, st)
    else (false, (key, now) :: st)
  | none => (false, (key, now) :: st)

/-- One per-IP record of the rate-limit middleware in
`OverlayServer.start`: `{count, resetTime}`. -/
structure RateRecord where
  count : ℕ
  resetTime : ℤ
deriving DecidableEq

/-- One request through the rate-limit middleware, for a fixed source
address (`WINDOW_MS = 10000`, `MAX_REQUESTS = 100`).  Returns
`(served, newRecord)`; `served = false` is the 429 response. -/
def rateLimitStep (record? : Option RateRecord) (now : ℤ) : Bool × Option RateRecord :=
  match record? with
  | none => (true, some { count := 1, resetTime := now + 10000 })
  | some r =>
    if now > r.resetTime then (true, some { count := 1, resetTime := now + 10000 })
    else
      let r2 : RateRecord := { count := r.count + 1, resetTime := r.resetTime }
      if r2.count > 100 then (false, some r2) else (true, some r2)

/-- Run the middleware over a list of request times for one source
address, returning the served/limited flag of each request. -/
def runRateLimiter (st : Option RateRecord) : List ℤ → List Bool
  | [] => []
  | t :: ts => (rateLimitStep st t).1 :: runRateLimiter (rateLimitStep st t).2 ts

/-- Instrumentation over `rateLimitStep`: the greatest number of requests
served within a single fixed window (a maximal run of requests handled
without the `now > resetTime` reset firing).  `cur` counts served requests
of the current window, `best` the maximum over closed windows; the branch
structure mirrors `rateLimitStep`. -/
def rlWindowMax : Option RateRecord → ℕ → ℕ → List ℤ → ℕ
  | _, cur, best, [] => max best cur
  | none, cur, best, t :: ts =>
    rlWindowMax (rateLimitStep none t).2 1 (max best cur) ts
  | some r, cur, best, t :: ts =>
    if t > r.resetTime then
      rlWindowMax (rateLimitStep (some r) t).2 1 (max best cur) ts
    else
      rlWindowMax (rateLimitStep (some r) t).2
        (cur + if (rateLimitStep (some r) t).1 then 1 else 0) best ts

/-! ## Helper lemmas -/

theorem trackDuration_queueSize (st : OverlayState) (d : Option ℚ) :
    (trackDuration st d).queueSize = st.queueSize := by
  cases d with
  | none => rfl
  | some q => simp only [trackDuration]; split <;> rfl

theorem trackDuration_totalInBatch (st : OverlayState) (d : Option ℚ) :
    (trackDuration st d).totalInBatch = st.totalInBatch := by
  cases d with
  | none => rfl
  | some q => simp only [trackDuration]; split <;> rfl

theorem trackDuration_currentPlaying (st : OverlayState) (d : Option ℚ) :
    (trackDuration st d).currentPlaying = st.currentPlaying := by
  cases d with
  | none => rfl
  | some q => simp only [trackDuration]; split <;> rfl

theorem trackDuration_pendingDurations (st : OverlayState) (d : Option ℚ) :
    (trackDuration st d).pendingDurations = st.pendingDurations := by
  cases d with
  | none => rfl
  | some q => simp only [trackDuration]; split <;> rfl

theorem trackDuration_audioFiles (st : OverlayState) (d : Option ℚ) :
    (trackDuration st d).audioFiles = st.audioFiles := by
  cases d with
  | none => rfl
  | some q => simp only [trackDuration]; split <;> rfl

theorem trackDuration_none (st : OverlayState) : trackDuration st none = st := rfl

/-- Unfolding equation for the `audio-ended` handler. -/
theorem audioEnded_eq (st : OverlayState) (d : Option ℚ) :
    audioEnded st d =
      if st.queueSize - 1 = 0 then
        { queueSize := 0, totalInBatch := 0, currentPlaying := 0
          totalDurationPlayed := 0, audioCount := 0, pendingDurations := []
          audioFiles := st.audioFiles }
      else
        { queueSize := st.queueSize - 1, totalInBatch := st.totalInBatch
          currentPlaying := st.currentPlaying + 1
          totalDurationPlayed := (trackDuration st d).totalDurationPlayed
          audioCount := (trackDuration st d).audioCount
          pendingDurations := st.pendingDurations.tail
          audioFiles := st.audioFiles } := by
  unfold audioEnded
  dsimp only
  rw [trackDuration_queueSize, trackDuration_totalInBatch, trackDuration_currentPlaying,
      trackDuration_pendingDurations, trackDuration_audioFiles]
  split_ifs with h0
  · rw [← h0]
  · rfl

theorem register_audioFiles_2 (st : OverlayState) (p : String) :
    ((registerAudioFile st p).2) = { st with audioFiles := (registerAudioFile st p).2.audioFiles } := by
  rw [registerAudioFile]; split <;> rfl

/-- Unfolding equation for `playAudio`. -/
theorem playAudio_eq (st : OverlayState) (gid gname uname p : String) (v d : ℚ) :
    playAudio st gid gname uname p v d =
      (if st.queueSize = 0 then
        { queueSize := st.queueSize + 1, totalInBatch := 1, currentPlaying := 0
          totalDurationPlayed := st.totalDurationPlayed, audioCount := st.audioCount
          pendingDurations := st.pendingDurations ++ [d]
          audioFiles := (registerAudioFile st p).2.audioFiles }
      else
        { queueSize := st.queueSize + 1, totalInBatch := st.totalInBatch + 1
          currentPlaying := st.currentPlaying
          totalDurationPlayed := st.totalDurationPlayed, audioCount := st.audioCount
          pendingDurations := st.pendingDurations ++ [d]
          audioFiles := (registerAudioFile st p).2.audioFiles },
       [OverlayMsg.playAudioCmd (registerAudioFile st p).1 v gname uname gid]) := by
  unfold playAudio
  dsimp only
  rw [register_audioFiles_2 st p]

/-- The counter-sum invariant preserved by every overlay operation. -/
theorem ovStep_sum (st : OverlayState) (o : OvOp)
    (h : st.queueSize ≠ 0 → st.currentPlaying + st.queueSize = st.totalInBatch) :
    (ovStep st o).queueSize ≠ 0 →
      (ovStep st o).currentPlaying + (ovStep st o).queueSize = (ovStep st o).totalInBatch := by
  cases o with
  | play gid gname uname p v d =>
    simp only [ovStep]
    rw [playAudio_eq]
    split_ifs with hempty
    · intro _; dsimp only; omega
    · intro _
      have := h hempty
      dsimp only
      omega
  | ended d =>
    simp only [ovStep]
    rw [audioEnded_eq]
    split_ifs with h0
    · intro hz; exact absurd rfl hz
    · intro _
      have := h (by omega)
      dsimp only
      omega
  | clear =>
    simp [ovStep, clearQueue]

/-- The counter-sum invariant holds along any run. -/
theorem runFrom_sum (ops : List OvOp) :
    ∀ st : OverlayState,
      (st.queueSize ≠ 0 → st.currentPlaying + st.queueSize = st.totalInBatch) →
      ((runFrom st ops).queueSize ≠ 0 →
        (runFrom st ops).currentPlaying + (runFrom st ops).queueSize = (runFrom st ops).totalInBatch) := by
  induction ops with
  | nil => intro st h; simpa [runFrom] using h
  | cons o ops ih =>
    intro st h
    have step := ovStep_sum st o h
    simpa [runFrom] using ih (ovStep st o) step

/-! ## C1 — batch-counter invariant -/

/-- Demonstration trace for C1: one `playAudio`, then `clearQueue`. -/
def c1DemoOps : List OvOp := [OvOp.play "g" "Rose" "U" "a.mp3" 1 2]

/-- C1 counterexample: `clearQueue` makes `queueSize` transition 1 → 0 yet
leaves `totalInBatch = 1` and `pendingDurations = [2]` in place, so the
claimed "all four batch fields are reset to empty whenever `queueSize`
transitions to 0 — including `clearQueue`" is false of the code. -/
theorem batch_reset_counterexample :
    (runOps c1DemoOps).queueSize = 1 ∧
    (runOps (c1DemoOps ++ [OvOp.clear])).queueSize = 0 ∧
    (runOps (c1DemoOps ++ [OvOp.clear])).totalInBatch = 1 ∧
    (runOps (c1DemoOps ++ [OvOp.clear])).currentPlaying = 0 ∧
    (runOps (c1DemoOps ++ [OvOp.clear])).pendingDurations = [2] := by
  decide

/-- C1 (amended): in every reachable overlay state with `queueSize ≠ 0`,
`currentPlaying + queueSize = totalInBatch`; the `audio-ended` handler
resets all batch fields exactly when it leaves `queueSize = 0`; but
`clearQueue` only zeroes `queueSize`, leaving `totalInBatch`,
`currentPlaying` and `pendingDurations` unchanged. -/
theorem batch_invariant_amended :
    (∀ ops : List OvOp, (runOps ops).queueSize ≠ 0 →
      (runOps ops).currentPlaying + (runOps ops).queueSize = (runOps ops).totalInBatch)
    ∧ (∀ (st : OverlayState) (d : Option ℚ), (audioEnded st d).queueSize = 0 →
      (audioEnded st d).totalInBatch = 0 ∧ (audioEnded st d).currentPlaying = 0 ∧
      (audioEnded st d).pendingDurations = [])
    ∧ (∀ st : OverlayState,
      (clearQueue st).1.queueSize = 0 ∧
      (clearQueue st).1.totalInBatch = st.totalInBatch ∧
      (clearQueue st).1.currentPlaying = st.currentPlaying ∧
      (clearQueue st).1.pendingDurations = st.pendingDurations) := by
  refine ⟨?_, ?_, ?_⟩
  · intro ops
    exact runFrom_sum ops overlayInit (by intro h; exact absurd rfl h)
  · intro st d
    rw [audioEnded_eq]
    split_ifs with h0
    · intro _; exact ⟨rfl, rfl, rfl⟩
    · intro hz; exact absurd hz (by dsimp only; omega)
  · intro st
    exact ⟨rfl, rfl, rfl, rfl⟩

/-- Witness for C1 (amended), at the concrete trace `c1DemoOps` and the
concrete state `overlayInit`. -/
theorem batch_invariant_amended_witness :
    ((runOps c1DemoOps).currentPlaying + (runOps c1DemoOps).queueSize =
      (runOps c1DemoOps).totalInBatch)
    ∧ ((audioEnded overlayInit none).totalInBatch = 0 ∧
       (audioEnded overlayInit none).currentPlaying = 0 ∧
       (audioEnded overlayInit none).pendingDurations = []) :=
  ⟨batch_invariant_amended.1 c1DemoOps (by decide),
   batch_invariant_amended.2.1 overlayInit none (by decide)⟩

/-! ## C9 — failed playback advances the queue like a success -/

/-- C9: an `audio-ended` without a duration performs exactly the same
queue accounting as one with a duration (same `queueSize`, `totalInBatch`,
`currentPlaying` and pending FIFO), and — when no batch reset fires — it
leaves the played-duration totals (`totalDurationPlayed`, `audioCount`)
untouched. -/
theorem audio_ended_failure_parity (st : OverlayState) (d : ℚ) :
    ((audioEnded st none).queueSize = (audioEnded st (some d)).queueSize ∧
     (audioEnded st none).totalInBatch = (audioEnded st (some d)).totalInBatch ∧
     (audioEnded st none).currentPlaying = (audioEnded st (some d)).currentPlaying ∧
     (audioEnded st none).pendingDurations = (audioEnded st (some d)).pendingDurations) ∧
    (2 ≤ st.queueSize →
      (audioEnded st none).totalDurationPlayed = st.totalDurationPlayed ∧
      (audioEnded st none).audioCount = st.audioCount) := by
  constructor
  · rw [audioEnded_eq, audioEnded_eq]
    split_ifs with h0
    · exact ⟨rfl, rfl, rfl, rfl⟩
    · exact ⟨rfl, rfl, rfl, rfl⟩
  · intro h2
    rw [audioEnded_eq, if_neg (by omega)]
    exact ⟨rfl, rfl⟩

/-- Concrete mid-batch state for the C9 witness. -/
def c9DemoState : OverlayState :=
  { queueSize := 2, totalInBatch := 3, currentPlaying := 1
    totalDurationPlayed := 5, audioCount := 1, pendingDurations := [1, 2]
    audioFiles := [] }

/-- Witness for C9 at a concrete mid-batch state. -/
theorem audio_ended_failure_parity_witness :
    (audioEnded c9DemoState none).totalDurationPlayed = c9DemoState.totalDurationPlayed ∧
    (audioEnded c9DemoState none).audioCount = c9DemoState.audioCount :=
  (audio_ended_failure_parity c9DemoState 3).2 (by decide)

/-! ## C10 — frame effect of clearQueue -/

/-- C10: `clearQueue` broadcasts exactly the `clear-queue` command and
zeroes `queueSize`, leaving every other field unchanged; hence the
progress read immediately afterwards has `remaining = 0` while `current`,
`total` and `estimatedSeconds` keep their pre-clear values. -/
theorem clear_queue_frame (st : OverlayState) (_h : st.pendingDurations ≠ []) :
    (clearQueue st).2 = [OverlayMsg.clearQueueCmd] ∧
    (clearQueue st).1.queueSize = 0 ∧
    (clearQueue st).1.totalInBatch = st.totalInBatch ∧
    (clearQueue st).1.currentPlaying = st.currentPlaying ∧
    (clearQueue st).1.pendingDurations = st.pendingDurations ∧
    getQueueProgress (clearQueue st).1 =
      { current := st.currentPlaying, total := st.totalInBatch, remaining := 0
        estimatedSeconds := (getQueueProgress st).estimatedSeconds } :=
  ⟨rfl, rfl, rfl, rfl, rfl, rfl⟩

/-- Concrete mid-batch state for the C10 witness. -/
def c10DemoState : OverlayState :=
  { queueSize := 2, totalInBatch := 3, currentPlaying := 1
    totalDurationPlayed := 0, audioCount := 0, pendingDurations := [5/2, 1/2]
    audioFiles := [] }

/-- Witness for C10 at a concrete mid-batch state. -/
theorem clear_queue_frame_witness :
    getQueueProgress (clearQueue c10DemoState).1 =
      { current := c10DemoState.currentPlaying, total := c10DemoState.totalInBatch
        remaining := 0, estimatedSeconds := (getQueueProgress c10DemoState).estimatedSeconds } :=
  (clear_queue_frame c10DemoState (by decide)).2.2.2.2.2

/-! ## C3 — dedup idempotence -/

/-- C3 counterexample: with a first sighting at timestamp `0`, the JS
truthiness guard `if (lastSeen && ...)` treats the recorded time as
absent, so a second call 1 ms later — strictly inside the 5 s window — is
NOT flagged as a duplicate (both calls forward), contradicting the claim
that the second call's forward decision is false. -/
theorem dedup_counterexample :
    (isDuplicateGift ([] : DedupState) "u" "g" 1 0).1 = false ∧
    (isDuplicateGift (isDuplicateGift ([] : DedupState) "u" "g" 1 0).2 "u" "g" 1 1).1 = false := by
  decide

/-- C3 (amended): provided the first call's timestamp is nonzero (so the
truthiness guard sees it), a first call with an unseen key forwards
(`isDuplicate = false`), a second call strictly within 5 s is dropped
(`isDuplicate = true`, and the stored timestamp is not refreshed), and a
call at or after 5 s from the first forwards again. -/
theorem dedup_idempotence_amended (userId giftId : String) (rc : ℕ) (st0 : DedupState)
    (t0 t1 t2 : ℤ)
    (hfresh : alookup (dedupKey userId giftId rc) st0 = none)
    (ht0 : t0 ≠ 0)
    (h1 : t1 - t0 < 5000)
    (h2 : 5000 ≤ t2 - t0) :
    (isDuplicateGift st0 userId giftId rc t0).1 = false ∧
    (isDuplicateGift (isDuplicateGift st0 userId giftId rc t0).2 userId giftId rc t1).1 = true ∧
    (isDuplicateGift
      (isDuplicateGift (isDuplicateGift st0 userId giftId rc t0).2 userId giftId rc t1).2
      userId giftId rc t2).1 = false := by
  have e1 : isDuplicateGift st0 userId giftId rc t0 =
      (false, (dedupKey userId giftId rc, t0) :: st0) := by
    simp [isDuplicateGift, hfresh]
  have hlook : alookup (dedupKey userId giftId rc)
      ((dedupKey userId giftId rc, t0) :: st0) = some t0 := by
    simp [alookup]
  have e2 : isDuplicateGift ((dedupKey userId giftId rc, t0) :: st0) userId giftId rc t1 =
      (true, (dedupKey userId giftId rc, t0) :: st0) := by
    simp [isDuplicateGift, hlook, ht0, h1]
  have e3 : (isDuplicateGift ((dedupKey userId giftId rc, t0) :: st0) userId giftId rc t2).1 =
      false := by
    simp only [isDuplicateGift, hlook]
    rw [if_neg (by intro hc; omega)]
  refine ⟨by rw [e1], by rw [e1, e2], by rw [e1, e2]; exact e3⟩

/-- Witness for C3 (amended) at concrete key and times 10, 12, 5010. -/
theorem dedup_idempotence_amended_witness :
    (isDuplicateGift ([] : DedupState) "u" "g" 1 10).1 = false ∧
    (isDuplicateGift (isDuplicateGift ([] : DedupState) "u" "g" 1 10).2 "u" "g" 1 12).1 = true ∧
    (isDuplicateGift
      (isDuplicateGift (isDuplicateGift ([] : DedupState) "u" "g" 1 10).2 "u" "g" 1 12).2
      "u" "g" 1 5010).1 = false :=
  dedup_idempotence_amended "u" "g" 1 ([] : DedupState) 10 12 5010
    (by decide) (by decide) (by decide) (by decide)

/-! ## C6 — token opacity round-trip -/

/-- Registering a path never disturbs the resolution of a different token. -/
theorem lookupAudio_register (st : OverlayState) (p t : String)
    (hne : t ≠ encodeToken p) :
    lookupAudio (registerAudioFile st p).2 t = lookupAudio st t := by
  unfold lookupAudio registerAudioFile
  split_ifs with ha
  · simp [alookup, hne]
  · rfl

/-- After any sequence of registrations starting from the fresh server, a
token that is not the encoding of any registered path resolves to `none`. -/
theorem lookupAudio_registerAll (ps : List String) (t : String) :
    ∀ st : OverlayState, lookupAudio st t = none →
    (∀ p ∈ ps, t ≠ encodeToken p) →
    lookupAudio (ps.foldl (fun s p => (registerAudioFile s p).2) st) t = none := by
  induction ps with
  | nil => intro st h _; simpa using h
  | cons p ps ih =>
    intro st h hall
    have hne : t ≠ encodeToken p := hall p (List.mem_cons_self p ps)
    have hstep : lookupAudio (registerAudioFile st p).2 t = none := by
      rw [lookupAudio_register st p t hne]; exact h
    simpa using ih (registerAudioFile st p).2 hstep
      (fun q hq => hall q (List.mem_cons_of_mem p hq))

/-- C6 counterexample: `registerAudioFile` on a non-audio path returns the
empty string — not a token resolving to the original path — and registers
nothing, so neither the returned value nor the path's encoding resolves;
the claimed universal round-trip over every file path fails. -/
theorem token_roundtrip_counterexample :
    (registerAudioFile overlayInit "notes.txt").1 = "" ∧
    (registerAudioFile overlayInit "notes.txt").2.audioFiles = [] ∧
    lookupAudio (registerAudioFile overlayInit "notes.txt").2 "" = none ∧
    lookupAudio (registerAudioFile overlayInit "notes.txt").2 (encodeToken "notes.txt") = none := by
  decide

/-- C6 (amended): for a path with an allowed audio extension,
`registerAudioFile` returns `/audio/` followed by the path's base64url
token, and that token immediately resolves to exactly the original path;
a non-audio path is rejected with the empty string and no registration;
and any token that is not the encoding of some registered path resolves
to not-found. -/
theorem token_roundtrip_amended :
    (∀ (st : OverlayState) (p : String), isAudioFile p = true →
      (registerAudioFile st p).1 = "/audio/" ++ encodeToken p ∧
      lookupAudio (registerAudioFile st p).2 (encodeToken p) = some p)
    ∧ (∀ (st : OverlayState) (p : String), isAudioFile p = false →
      registerAudioFile st p = ("", st))
    ∧ (∀ (ps : List String) (t : String),
      (∀ p ∈ ps, t ≠ encodeToken p) →
      lookupAudio (ps.foldl (fun s p => (registerAudioFile s p).2) overlayInit) t = none) := by
  refine ⟨?_, ?_, ?_⟩
  · intro st p ha
    unfold registerAudioFile
    rw [if_pos ha]
    exact ⟨rfl, by simp [lookupAudio, alookup]⟩
  · intro st p ha
    unfold registerAudioFile
    rw [if_neg (by simp [ha])]
  · intro ps t hall
    exact lookupAudio_registerAll ps t overlayInit rfl hall

/-- Witness for C6 (amended) at concrete paths and tokens. -/
theorem token_roundtrip_amended_witness :
    ((registerAudioFile overlayInit "a.mp3").1 = "/audio/" ++ encodeToken "a.mp3" ∧
     lookupAudio (registerAudioFile overlayInit "a.mp3").2 (encodeToken "a.mp3") = some "a.mp3") ∧
    registerAudioFile overlayInit "b.txt" = ("", overlayInit) ∧
    lookupAudio (["a.mp3"].foldl (fun s p => (registerAudioFile s p).2) overlayInit) "zzz" = none :=
  ⟨token_roundtrip_amended.1 overlayInit "a.mp3" (by decide),
   token_roundtrip_amended.2.1 overlayInit "b.txt" (by decide),
   token_roundtrip_amended.2.2 ["a.mp3"] "zzz" (by decide)⟩

/-! ## C2 — batch accounting closure -/

/-- A batch-idle tracker state: all counters and duration bookkeeping
empty. -/
def CleanBatch (st : OverlayState) : Prop :=
  st.queueSize = 0 ∧ st.totalInBatch = 0 ∧ st.currentPlaying = 0 ∧
  st.totalDurationPlayed = 0 ∧ st.audioCount = 0 ∧ st.pendingDurations = []

/-- The tracker invariant maintained by `playAudio` and well-matched
`audio-ended` messages: an empty queue means a fully reset batch, the
pending FIFO has one entry per queued item, and the counters sum up. -/
def TrackerInv (st : OverlayState) : Prop :=
  (st.queueSize = 0 → CleanBatch st) ∧
  st.pendingDurations.length = st.queueSize ∧
  st.currentPlaying + st.queueSize = st.totalInBatch

theorem trackerInv_play (st : OverlayState) (gid gname uname p : String) (v d : ℚ)
    (h : TrackerInv st) :
    TrackerInv (ovStep st (.play gid gname uname p v d)) ∧
    (ovStep st (.play gid gname uname p v d)).queueSize = st.queueSize + 1 := by
  obtain ⟨hclean, hlen, hsum⟩ := h
  simp only [ovStep]
  rw [playAudio_eq]
  split_ifs with h0
  · obtain ⟨_, _, _, _, _, hpend⟩ := hclean h0
    refine ⟨⟨fun hq => absurd hq (by dsimp only; omega), ?_, ?_⟩, rfl⟩
    · dsimp only; simp [hpend, h0]
    · dsimp only; omega
  · refine ⟨⟨fun hq => absurd hq (by dsimp only; omega), ?_, ?_⟩, rfl⟩
    · dsimp only; simp [hlen]
    · dsimp only; omega

theorem trackerInv_ended (st : OverlayState) (d : Option ℚ)
    (h : TrackerInv st) (hq : 1 ≤ st.queueSize) :
    TrackerInv (ovStep st (.ended d)) ∧
    (ovStep st (.ended d)).queueSize + 1 = st.queueSize := by
  obtain ⟨hclean, hlen, hsum⟩ := h
  simp only [ovStep]
  rw [audioEnded_eq]
  split_ifs with h0
  · exact ⟨⟨fun _ => ⟨rfl, rfl, rfl, rfl, rfl, rfl⟩, rfl, rfl⟩, by dsimp only; omega⟩
  · refine ⟨⟨fun hz => absurd hz (by dsimp only; omega), ?_, ?_⟩, by dsimp only; omega⟩
    · dsimp only; rw [List.length_tail]; omega
    · dsimp only; omega

/-- Main induction for C2: starting from an invariant state, any sequence
of `playAudio` and `audio-ended` operations in which no prefix has more
ended-acknowledgments than the starting queue size plus its enqueues
preserves the invariant and moves `queueSize` by the enqueue/ended
difference. -/
theorem runFrom_balanced (ops : List OvOp) :
    ∀ st : OverlayState, TrackerInv st →
    (∀ o ∈ ops, o.isPlay = true ∨ o.isEnded = true) →
    (∀ n : ℕ, (ops.take n).countP OvOp.isEnded ≤ st.queueSize + (ops.take n).countP OvOp.isPlay) →
    TrackerInv (runFrom st ops) ∧
    (runFrom st ops).queueSize + ops.countP OvOp.isEnded = st.queueSize + ops.countP OvOp.isPlay := by
  induction ops with
  | nil =>
    intro st h _ _
    exact ⟨by simpa [runFrom] using h, by simp [runFrom]⟩
  | cons o ops ih =>
    intro st h hkinds hpre
    have hkinds2 : ∀ o2 ∈ ops, o2.isPlay = true ∨ o2.isEnded = true :=
      fun o2 ho2 => hkinds o2 (List.mem_cons_of_mem o ho2)
    cases o with
    | play gid gname uname p v d =>
      have step := trackerInv_play st gid gname uname p v d h
      have hpre2 : ∀ n : ℕ, (ops.take n).countP OvOp.isEnded ≤
          (ovStep st (.play gid gname uname p v d)).queueSize + (ops.take n).countP OvOp.isPlay := by
        intro n
        have := hpre (n + 1)
        rw [List.take_succ_cons, List.countP_cons, List.countP_cons] at this
        simp [OvOp.isPlay, OvOp.isEnded] at this
        rw [step.2]
        omega
      have IH := ih (ovStep st (.play gid gname uname p v d)) step.1 hkinds2 hpre2
      have hco : (OvOp.play gid gname uname p v d :: ops).countP OvOp.isEnded =
          ops.countP OvOp.isEnded := by
        simp [List.countP_cons, OvOp.isEnded]
      have hcp : (OvOp.play gid gname uname p v d :: ops).countP OvOp.isPlay =
          ops.countP OvOp.isPlay + 1 := by
        simp [List.countP_cons, OvOp.isPlay]
      refine ⟨by simpa [runFrom] using IH.1, ?_⟩
      have h2 := IH.2
      rw [step.2] at h2
      show (runFrom st (OvOp.play gid gname uname p v d :: ops)).queueSize + _ = _
      have hrf : runFrom st (OvOp.play gid gname uname p v d :: ops) =
          runFrom (ovStep st (.play gid gname uname p v d)) ops := rfl
      rw [hrf, hco, hcp]
      omega
    | ended d =>
      have hq1 : 1 ≤ st.queueSize := by
        have := hpre 1
        simp [List.take_succ_cons, List.countP_cons, OvOp.isEnded, OvOp.isPlay] at this
        omega
      have step := trackerInv_ended st d h hq1
      have hpre2 : ∀ n : ℕ, (ops.take n).countP OvOp.isEnded ≤
          (ovStep st (.ended d)).queueSize + (ops.take n).countP OvOp.isPlay := by
        intro n
        have := hpre (n + 1)
        rw [List.take_succ_cons, List.countP_cons, List.countP_cons] at this
        simp [OvOp.isPlay, OvOp.isEnded] at this
        have := step.2
        omega
      have IH := ih (ovStep st (.ended d)) step.1 hkinds2 hpre2
      have hco : (OvOp.ended d :: ops).countP OvOp.isEnded =
          ops.countP OvOp.isEnded + 1 := by
        simp [List.countP_cons, OvOp.isEnded]
      have hcp : (OvOp.ended d :: ops).countP OvOp.isPlay = ops.countP OvOp.isPlay := by
        simp [List.countP_cons, OvOp.isPlay]
      refine ⟨by simpa [runFrom] using IH.1, ?_⟩
      have h2 := IH.2
      have hs2 := step.2
      have hrf : runFrom st (OvOp.ended d :: ops) = runFrom (ovStep st (.ended d)) ops := rfl
      rw [hrf, hco, hcp]
      omega
    | clear =>
      rcases hkinds .clear (List.mem_cons_self _ _) with hp | he
      · exact absurd hp (by simp [OvOp.isPlay])
      · exact absurd he (by simp [OvOp.isEnded])

/-- C2: for every interleaving of `playAudio` and `audio-ended` in which
the two are balanced overall and no prefix has more ended-acknowledgments
than enqueues, the tracker ends back at
`{current := 0, total := 0, remaining := 0, estimatedSeconds := 0}`. -/
theorem batch_accounting_closure (ops : List OvOp)
    (hkinds : ∀ o ∈ ops, o.isPlay = true ∨ o.isEnded = true)
    (hbal : ops.countP OvOp.isPlay = ops.countP OvOp.isEnded)
    (hpre : ∀ n : ℕ, (ops.take n).countP OvOp.isEnded ≤ (ops.take n).countP OvOp.isPlay) :
    getQueueProgress (runOps ops) =
      { current := 0, total := 0, remaining := 0, estimatedSeconds := 0 } := by
  have hinit : TrackerInv overlayInit :=
    ⟨fun _ => ⟨rfl, rfl, rfl, rfl, rfl, rfl⟩, rfl, rfl⟩
  have main := runFrom_balanced ops overlayInit hinit hkinds
    (by intro n; have := hpre n; simpa [overlayInit] using this)
  have hq0 : (runFrom overlayInit ops).queueSize = 0 := by
    have h2 := main.2
    have hz : overlayInit.queueSize = 0 := rfl
    omega
  obtain ⟨_, ht, hc, _, _, hp⟩ := main.1.1 hq0
  show getQueueProgress (runFrom overlayInit ops) = _
  unfold getQueueProgress
  rw [hq0, ht, hc, hp]
  have hz : jsRound 0 = 0 := by norm_num [jsRound, Rat.floor]
  simp only [List.foldl_nil]
  rw [hz]

/-- Concrete balanced trace for the C2 witness: two enqueues, each matched
by one ended-acknowledgment (one with a duration, one without). -/
def c2DemoOps : List OvOp :=
  [OvOp.play "g" "Rose" "U" "a.mp3" 1 2, OvOp.ended (some 2),
   OvOp.play "g" "Rose" "U" "b.wav" 1 3, OvOp.ended none]

/-- Witness for C2 at the concrete balanced trace `c2DemoOps`. -/
theorem batch_accounting_closure_witness :
    getQueueProgress (runOps c2DemoOps) =
      { current := 0, total := 0, remaining := 0, estimatedSeconds := 0 } :=
  batch_accounting_closure c2DemoOps (by decide) (by decide) (by
    intro n
    by_cases hn : n ≤ 4
    · exact (by decide :
        ∀ m : ℕ, m ≤ 4 → (c2DemoOps.take m).countP OvOp.isEnded ≤
          (c2DemoOps.take m).countP OvOp.isPlay) n hn
    · rw [List.take_of_length_le (le_trans (by decide : c2DemoOps.length ≤ 4) (by omega))]
      decide)

/-! ## C4 — repeat cap and cadence -/

theorem intervalTicks_length (mk : ℕ → Dispatch) (rc : ℕ) :
    ∀ (fuel played : ℕ), rc ≤ played + fuel →
      (intervalTicks mk rc played fuel).length = rc - played := by
  intro fuel
  induction fuel with
  | zero =>
    intro played h
    simp only [intervalTicks, List.length_nil]
    omega
  | succ f ih =>
    intro played h
    simp only [intervalTicks]
    split_ifs with hp
    · simp only [List.length_nil]; omega
    · simp only [List.length_cons, ih (played + 1) (by omega)]
      omega

theorem intervalTicks_get (mk : ℕ → Dispatch) (rc : ℕ) :
    ∀ (fuel played j : ℕ), played + j < rc → rc ≤ played + fuel →
      (intervalTicks mk rc played fuel).get? j = some (mk (played + j)) := by
  intro fuel
  induction fuel with
  | zero => intro played j h1 h2; omega
  | succ f ih =>
    intro played j h1 h2
    simp only [intervalTicks]
    rw [if_neg (by omega)]
    cases j with
    | zero => rfl
    | succ j2 =>
      show (intervalTicks mk rc (played + 1) f).get? j2 = _
      rw [ih (played + 1) j2 (by omega) (by omega)]
      have harith : played + 1 + j2 = played + (j2 + 1) := by omega
      rw [harith]

theorem intervalTicks_mem (mk : ℕ → Dispatch) (rc : ℕ) :
    ∀ (fuel played : ℕ) (d : Dispatch), d ∈ intervalTicks mk rc played fuel →
      ∃ k, played ≤ k ∧ k < rc ∧ d = mk k := by
  intro fuel
  induction fuel with
  | zero => intro played d hd; simp [intervalTicks] at hd
  | succ f ih =>
    intro played d hd
    simp only [intervalTicks] at hd
    split_ifs at hd with hp
    · simp at hd
    · rcases List.mem_cons.mp hd with rfl | h2
      · exact ⟨played, le_refl played, by omega, rfl⟩
      · obtain ⟨k, hk1, hk2, hk3⟩ := ih (played + 1) d h2
        exact ⟨k, by omega, hk2, hk3⟩

/-- The time offset of the `k`-th interval repetition. -/
theorem nextDispatch_time (storage : StorageState) (m : GiftAudioMapping) (rnd : ℕ → ℕ)
    (gid gname uname p : String) (fv : ℚ) (k : ℕ) :
    (nextDispatch storage m rnd gid gname uname p fv k).time = k * 250 := rfl

/-- Unfolding of the `giftFinal` handler in the enabled-and-resolved case. -/
theorem giftFinalHandler_eq_play (storage : StorageState) (rnd : ℕ → ℕ) (event : GiftEvent)
    (m : GiftAudioMapping) (p : String)
    (hm : getGiftAudio storage event.giftId = some m)
    (hen : m.enabled = true)
    (hp : resolveAudioPath m (rnd 0) = some p) :
    giftFinalHandler storage rnd event =
      { surfaced := [enrichGift storage event]
        dispatches :=
          { time := 0, giftId := event.giftId
            giftName := (enrichGift storage event).giftName
            username := event.nickname, path := p
            volume := getAudioVolume storage (stripExt (lastComponent p)) * storage.globalVolume
            duration := (getAudioDuration storage (stripExt (lastComponent p))).getD 0 } ::
          (if min event.giftCount 20 > 1 then
            intervalTicks
              (nextDispatch storage m rnd event.giftId (enrichGift storage event).giftName
                event.nickname p
                (getAudioVolume storage (stripExt (lastComponent p)) * storage.globalVolume))
              (min event.giftCount 20) 1 (min event.giftCount 20)
          else []) } := by
  unfold giftFinalHandler
  rw [hm]
  dsimp only
  rw [hen]
  rw [if_pos rfl]
  rw [hp]

/-- The re-drawn path of the `k`-th interval repetition when the playlist
has more than one element. -/
theorem nextDispatch_path_redraw (storage : StorageState) (m : GiftAudioMapping)
    (rnd : ℕ → ℕ) (gid gname uname p : String) (fv : ℚ) (k : ℕ)
    (hlen : 1 < m.audioFiles.length) :
    (nextDispatch storage m rnd gid gname uname p fv k).path =
      ((m.audioFiles.get? (rnd k % m.audioFiles.length)).map AudioFileRef.path).getD p := by
  unfold nextDispatch
  rw [if_pos hlen]

/-- C4: for a forwarded gift with an enabled mapping whose path resolves,
the handler issues exactly `min(giftCount, 20)` dispatches — the `i`-th at
offset `i * 250` ms (one immediate, the rest at the 250 ms cadence) — and,
when the playlist has more than one entry, the `k`-th repetition's path is
an independent re-draw `rnd k` from the playlist.  Instantiating
`giftCount = 37` (see the witness) gives exactly 20 dispatches. -/
theorem repeat_cap_cadence (storage : StorageState) (rnd : ℕ → ℕ) (event : GiftEvent)
    (m : GiftAudioMapping)
    (hm : getGiftAudio storage event.giftId = some m)
    (hen : m.enabled = true)
    (hres : ∃ p, resolveAudioPath m (rnd 0) = some p)
    (hgc : 1 ≤ event.giftCount) :
    (giftFinalHandler storage rnd event).dispatches.length = min event.giftCount 20
    ∧ (∀ i, i < min event.giftCount 20 →
        ((giftFinalHandler storage rnd event).dispatches.get? i).map Dispatch.time =
          some (i * 250))
    ∧ (1 < m.audioFiles.length →
        ∀ k, 1 ≤ k → k < min event.giftCount 20 →
          ((giftFinalHandler storage rnd event).dispatches.get? k).map Dispatch.path =
            (m.audioFiles.get? (rnd k % m.audioFiles.length)).map AudioFileRef.path) := by
  obtain ⟨p, hp⟩ := hres
  rw [giftFinalHandler_eq_play storage rnd event m p hm hen hp]
  have hrc1 : 1 ≤ min event.giftCount 20 := by omega
  refine ⟨?_, ?_, ?_⟩
  · dsimp only
    rw [List.length_cons]
    split_ifs with h1
    · rw [intervalTicks_length _ (min event.giftCount 20) (min event.giftCount 20) 1 (by omega)]
      omega
    · simp only [List.length_nil]
      omega
  · intro i hi
    cases i with
    | zero => rfl
    | succ j =>
      have h1 : min event.giftCount 20 > 1 := by omega
      dsimp only
      rw [if_pos h1]
      show ((intervalTicks _ (min event.giftCount 20) 1 (min event.giftCount 20)).get? j).map
        Dispatch.time = _
      rw [intervalTicks_get _ (min event.giftCount 20) (min event.giftCount 20) 1 j
        (by omega) (by omega)]
      simp only [Option.map_some', nextDispatch_time]
      have : 1 + j = j + 1 := by omega
      rw [this]
  · intro hlen k hk1 hk2
    have h1 : min event.giftCount 20 > 1 := by omega
    obtain ⟨j, rfl⟩ : ∃ j, k = j + 1 := ⟨k - 1, by omega⟩
    dsimp only
    rw [if_pos h1]
    show ((intervalTicks _ (min event.giftCount 20) 1 (min event.giftCount 20)).get? j).map
      Dispatch.path = _
    rw [intervalTicks_get _ (min event.giftCount 20) (min event.giftCount 20) 1 j
      (by omega) (by omega)]
    have harith : 1 + j = j + 1 := by omega
    rw [harith]
    simp only [Option.map_some']
    rw [nextDispatch_path_redraw storage m rnd event.giftId (enrichGift storage event).giftName
      event.nickname p _ (j + 1) hlen]
    have hlt : rnd (j + 1) % m.audioFiles.length < m.audioFiles.length :=
      Nat.mod_lt _ (by omega)
    obtain ⟨a, ha⟩ : ∃ a, m.audioFiles.get? (rnd (j + 1) % m.audioFiles.length) = some a :=
      ⟨m.audioFiles.get ⟨_, hlt⟩, List.get?_eq_get hlt⟩
    rw [ha]
    rfl

/-- Concrete enabled two-clip mapping for the C4 witness. -/
def c4DemoMapping : GiftAudioMapping :=
  { giftId := "5655", giftName := "Rose", audioPath := none
    audioFiles := [AudioFileRef.entry "a.mp3" 1, AudioFileRef.entry "b.mp3" 1]
    enabled := true }

/-- Concrete storage for the C4 witness. -/
def c4DemoStorage : StorageState :=
  { giftAudioMappings := [("5655", c4DemoMapping)], globalVolume := 1
    audioFileVolumes := [], audioFileDurations := [], cachedGifts := [] }

/-- Concrete `giftCount = 37` event for the C4 witness. -/
def c4DemoEvent : GiftEvent :=
  { userId := "u", username := "user", nickname := "User", giftId := "5655"
    giftName := "Rose", giftCount := 37, diamondCount := 1, isComboEnd := true }

/-- Witness for C4: a 37-gift combo produces exactly `min 37 20 = 20`
dispatches. -/
theorem repeat_cap_cadence_witness :
    (giftFinalHandler c4DemoStorage (fun k => k) c4DemoEvent).dispatches.length = 20 :=
  (repeat_cap_cadence c4DemoStorage (fun k => k) c4DemoEvent c4DemoMapping
    rfl rfl ⟨"a.mp3", rfl⟩ (by decide)).1

/-! ## C8 — disabled or absent mapping is a silent no-op -/

/-- Unfolding of the `giftFinal` handler when no mapping exists. -/
theorem giftFinalHandler_eq_none (storage : StorageState) (rnd : ℕ → ℕ) (event : GiftEvent)
    (hga : getGiftAudio storage event.giftId = none) :
    giftFinalHandler storage rnd event =
      { surfaced := [enrichGift storage event], dispatches := [] } := by
  unfold giftFinalHandler
  rw [hga]

/-- Unfolding of the `giftFinal` handler when the mapping is disabled. -/
theorem giftFinalHandler_eq_disabled (storage : StorageState) (rnd : ℕ → ℕ) (event : GiftEvent)
    (m : GiftAudioMapping)
    (hga : getGiftAudio storage event.giftId = some m)
    (hen : m.enabled = false) :
    giftFinalHandler storage rnd event =
      { surfaced := [enrichGift storage event], dispatches := [] } := by
  unfold giftFinalHandler
  rw [hga]
  dsimp only
  rw [hen]
  rw [if_neg (by simp)]

/-- Unfolding of the `giftFinal` handler when no playable path resolves. -/
theorem giftFinalHandler_eq_unresolved (storage : StorageState) (rnd : ℕ → ℕ) (event : GiftEvent)
    (m : GiftAudioMapping)
    (hga : getGiftAudio storage event.giftId = some m)
    (hen : m.enabled = true)
    (hres : resolveAudioPath m (rnd 0) = none) :
    giftFinalHandler storage rnd event =
      { surfaced := [enrichGift storage event], dispatches := [] } := by
  unfold giftFinalHandler
  rw [hga]
  dsimp only
  rw [hen]
  rw [if_pos rfl]
  rw [hres]

/-- C8: when the gift has no mapping, or its mapping is disabled, the
handler issues zero play dispatches — regardless of `giftCount` — while
the (enriched) gift event is still surfaced to the renderer. -/
theorem disabled_mapping_no_dispatch (storage : StorageState) (rnd : ℕ → ℕ) (event : GiftEvent)
    (h : getGiftAudio storage event.giftId = none ∨
      ∃ m, getGiftAudio storage event.giftId = some m ∧ m.enabled = false) :
    (giftFinalHandler storage rnd event).dispatches = [] ∧
    (giftFinalHandler storage rnd event).surfaced = [enrichGift storage event] := by
  rcases h with hn | ⟨m, hm, hen⟩
  · rw [giftFinalHandler_eq_none storage rnd event hn]
    exact ⟨rfl, rfl⟩
  · rw [giftFinalHandler_eq_disabled storage rnd event m hm hen]
    exact ⟨rfl, rfl⟩

/-- Concrete disabled mapping for the C8 witness. -/
def c8DemoMapping : GiftAudioMapping :=
  { giftId := "7", giftName := "Heart", audioPath := none
    audioFiles := [AudioFileRef.entry "a.mp3" 1], enabled := false }

/-- Concrete storage for the C8 witness. -/
def c8DemoStorage : StorageState :=
  { giftAudioMappings := [("7", c8DemoMapping)], globalVolume := 1
    audioFileVolumes := [], audioFileDurations := [], cachedGifts := [] }

/-- Concrete large-combo event for the C8 witness. -/
def c8DemoEvent : GiftEvent :=
  { userId := "u", username := "user", nickname := "User", giftId := "7"
    giftName := "Heart", giftCount := 500, diamondCount := 1, isComboEnd := true }

/-- Witness for C8 at a disabled mapping and `giftCount = 500`. -/
theorem disabled_mapping_no_dispatch_witness :
    (giftFinalHandler c8DemoStorage (fun k => k) c8DemoEvent).dispatches = [] ∧
    (giftFinalHandler c8DemoStorage (fun k => k) c8DemoEvent).surfaced =
      [enrichGift c8DemoStorage c8DemoEvent] :=
  disabled_mapping_no_dispatch c8DemoStorage (fun k => k) c8DemoEvent
    (Or.inr ⟨c8DemoMapping, rfl, rfl⟩)

/-! ## C5 — volume composition -/

/-- A successful association-list lookup comes from a list member. -/
theorem alookup_mem {α : Type} (k : String) (v : α) :
    ∀ l : List (String × α), alookup k l = some v → (k, v) ∈ l := by
  intro l
  induction l with
  | nil => intro h; simp [alookup] at h
  | cons a rest ih =>
    obtain ⟨k2, v2⟩ := a
    simp only [alookup]
    split_ifs with he
    · intro hv
      rw [Option.some_inj] at hv
      rw [he, hv]
      exact List.mem_cons_self _ _
    · intro hv
      exact List.mem_cons_of_mem _ (ih hv)

/-- If every stored per-audio volume is in `[0, 1]`, every `getAudioVolume`
result is in `[0, 1]` (the missing-entry default is `1`). -/
theorem getAudioVolume_range (st : StorageState) (id : String)
    (hvols : ∀ pr ∈ st.audioFileVolumes, 0 ≤ pr.2 ∧ pr.2 ≤ 1) :
    0 ≤ getAudioVolume st id ∧ getAudioVolume st id ≤ 1 := by
  unfold getAudioVolume
  cases hlk : alookup id st.audioFileVolumes with
  | none => constructor <;> norm_num
  | some v =>
    have := hvols (id, v) (alookup_mem id v st.audioFileVolumes hlk)
    simpa using this

/-- Every interval repetition's volume is the library volume of its own
path (keyed by filename without extension) times the global volume,
provided the initial `finalVolume` was computed that way. -/
theorem nextDispatch_volume (storage : StorageState) (m : GiftAudioMapping)
    (rnd : ℕ → ℕ) (gid gname uname p : String) (fv : ℚ) (k : ℕ)
    (hfv : fv = getAudioVolume storage (stripExt (lastComponent p)) * storage.globalVolume) :
    (nextDispatch storage m rnd gid gname uname p fv k).volume =
      getAudioVolume storage
        (stripExt (lastComponent (nextDispatch storage m rnd gid gname uname p fv k).path)) *
      storage.globalVolume := by
  unfold nextDispatch
  split_ifs with h
  · rfl
  · exact hfv

/-- C5, product form: every dispatch's volume is exactly
`getAudioVolume(audioId of its path) * globalVolume` — the raw product,
with no clamping applied at resolution time. -/
theorem dispatch_volume_product (storage : StorageState) (rnd : ℕ → ℕ) (event : GiftEvent)
    (d : Dispatch) (hd : d ∈ (giftFinalHandler storage rnd event).dispatches) :
    d.volume =
      getAudioVolume storage (stripExt (lastComponent d.path)) * storage.globalVolume := by
  cases hga : getGiftAudio storage event.giftId with
  | none =>
    rw [giftFinalHandler_eq_none storage rnd event hga] at hd
    simp at hd
  | some m =>
    cases hen : m.enabled with
    | false =>
      rw [giftFinalHandler_eq_disabled storage rnd event m hga hen] at hd
      simp at hd
    | true =>
      cases hres : resolveAudioPath m (rnd 0) with
      | none =>
        rw [giftFinalHandler_eq_unresolved storage rnd event m hga hen hres] at hd
        simp at hd
      | some p =>
        rw [giftFinalHandler_eq_play storage rnd event m p hga hen hres] at hd
        dsimp only at hd
        rcases List.mem_cons.mp hd with rfl | h2
        · rfl
        · split_ifs at h2 with h1
          · obtain ⟨k, _, _, rfl⟩ := intervalTicks_mem _ (min event.giftCount 20)
              (min event.giftCount 20) 1 d h2
            exact nextDispatch_volume storage m rnd event.giftId
              (enrichGift storage event).giftName event.nickname p _ k rfl
          · simp at h2

/-- Concrete one-clip enabled mapping for C5. -/
def c5DemoMapping : GiftAudioMapping :=
  { giftId := "9", giftName := "Hat", audioPath := none
    audioFiles := [AudioFileRef.entry "x.mp3" 1], enabled := true }

/-- Storage holding an out-of-range per-audio volume `2` for audio id
`x` (as the claim's "stored inputs are out of range" posits). -/
def c5DemoStorage : StorageState :=
  { giftAudioMappings := [("9", c5DemoMapping)], globalVolume := 1
    audioFileVolumes := [("x", 2)], audioFileDurations := [], cachedGifts := [] }

/-- Concrete event for C5. -/
def c5DemoEvent : GiftEvent :=
  { userId := "u", username := "user", nickname := "User", giftId := "9"
    giftName := "Hat", giftCount := 1, diamondCount := 1, isComboEnd := true }

/-- C5 counterexample: with a stored per-audio volume of `2` (out of
range) and `globalVolume = 1`, resolution emits effective volume `2` —
outside `[0, 1]` — because no clamping happens at resolution time; the
clamped-components product the claim describes would be `1`. -/
theorem volume_clamp_counterexample :
    ((giftFinalHandler c5DemoStorage (fun k => k) c5DemoEvent).dispatches.map
      Dispatch.volume) = [2] ∧
    ¬ ((2 : ℚ) ≤ 1) ∧
    max 0 (min 1 (2 : ℚ)) * max 0 (min 1 (1 : ℚ)) = 1 ∧ (2 : ℚ) ≠ 1 := by
  refine ⟨?_, by norm_num, by norm_num, by norm_num⟩
  rw [giftFinalHandler_eq_play c5DemoStorage (fun k => k) c5DemoEvent c5DemoMapping "x.mp3"
    rfl rfl rfl]
  dsimp only
  rw [if_neg (by decide)]
  show [getAudioVolume c5DemoStorage (stripExt (lastComponent "x.mp3")) *
    c5DemoStorage.globalVolume] = [2]
  have h1 : getAudioVolume c5DemoStorage (stripExt (lastComponent "x.mp3")) = 2 := rfl
  have h2 : c5DemoStorage.globalVolume = 1 := rfl
  rw [h1, h2]
  norm_num

/-- Storage with in-range stored volume `1/2` and `globalVolume = 2/5`
for the C5 concrete-product conjunct and witness. -/
def c5bDemoStorage : StorageState :=
  { giftAudioMappings := [("9", c5DemoMapping)], globalVolume := 2/5
    audioFileVolumes := [("x", 1/2)], audioFileDurations := [], cachedGifts := [] }

/-- C5 (amended): the write path (`setAudioVolume`) clamps to `[0, 1]`;
resolution multiplies the stored per-audio volume (keyed by the filename
without extension; a missing entry defaults to `1`) by the stored global
volume with NO clamping, so whenever the stored values are in range the
effective volume is their exact product and lies in `[0, 1]`; concretely,
stored volume `1/2` under global volume `2/5` yields `1/5`.  (Out-of-range
stored values propagate unclamped — see the counterexample.) -/
theorem volume_composition_amended :
    (∀ (st : StorageState) (id : String) (v : ℚ),
      0 ≤ getAudioVolume (setAudioVolume st id v) id ∧
      getAudioVolume (setAudioVolume st id v) id ≤ 1)
    ∧ (∀ (storage : StorageState) (rnd : ℕ → ℕ) (event : GiftEvent) (d : Dispatch),
      (∀ pr ∈ storage.audioFileVolumes, 0 ≤ pr.2 ∧ pr.2 ≤ 1) →
      0 ≤ storage.globalVolume → storage.globalVolume ≤ 1 →
      d ∈ (giftFinalHandler storage rnd event).dispatches →
      d.volume =
        getAudioVolume storage (stripExt (lastComponent d.path)) * storage.globalVolume ∧
      0 ≤ d.volume ∧ d.volume ≤ 1)
    ∧ ((giftFinalHandler c5bDemoStorage (fun k => k) c5DemoEvent).dispatches.map
        Dispatch.volume) = [1/5] := by
  refine ⟨?_, ?_, ?_⟩
  · intro st id v
    have hv : getAudioVolume (setAudioVolume st id v) id = max 0 (min 1 v) := by
      simp [getAudioVolume, setAudioVolume, alookup]
    rw [hv]
    constructor
    · exact le_max_left 0 (min 1 v)
    · exact max_le (by norm_num) (min_le_left 1 v)
  · intro storage rnd event d hvols hg0 hg1 hd
    have hprod := dispatch_volume_product storage rnd event d hd
    have hav := getAudioVolume_range storage (stripExt (lastComponent d.path)) hvols
    refine ⟨hprod, ?_, ?_⟩
    · rw [hprod]; exact mul_nonneg hav.1 hg0
    · rw [hprod]; exact mul_le_one₀ hav.2 hg0 hg1
  · rw [giftFinalHandler_eq_play c5bDemoStorage (fun k => k) c5DemoEvent c5DemoMapping "x.mp3"
      rfl rfl rfl]
    dsimp only
    rw [if_neg (by decide)]
    show [getAudioVolume c5bDemoStorage (stripExt (lastComponent "x.mp3")) *
      c5bDemoStorage.globalVolume] = [1/5]
    have h1 : getAudioVolume c5bDemoStorage (stripExt (lastComponent "x.mp3")) = 1/2 := rfl
    have h2 : c5bDemoStorage.globalVolume = 2/5 := rfl
    rw [h1, h2]
    norm_num

/-- The single dispatch the handler issues for `c5bDemoStorage` and
`c5DemoEvent`. -/
def c5bDemoDispatch : Dispatch :=
  { time := 0, giftId := "9", giftName := "Hat", username := "User", path := "x.mp3"
    volume := getAudioVolume c5bDemoStorage (stripExt (lastComponent "x.mp3")) *
      c5bDemoStorage.globalVolume
    duration := (getAudioDuration c5bDemoStorage (stripExt (lastComponent "x.mp3"))).getD 0 }

theorem c5bDemoDispatch_mem :
    c5bDemoDispatch ∈ (giftFinalHandler c5bDemoStorage (fun k => k) c5DemoEvent).dispatches := by
  rw [giftFinalHandler_eq_play c5bDemoStorage (fun k => k) c5DemoEvent c5DemoMapping "x.mp3"
    rfl rfl rfl]
  dsimp only
  rw [if_neg (by decide)]
  exact List.mem_singleton.mpr rfl

/-- Witness for C5 (amended): the write-clamp at a concrete out-of-range
input, and the unclamped in-range product at a concrete in-range store. -/
theorem volume_composition_amended_witness :
    (0 ≤ getAudioVolume (setAudioVolume c5bDemoStorage "x" 7) "x" ∧
      getAudioVolume (setAudioVolume c5bDemoStorage "x" 7) "x" ≤ 1) ∧
    (c5bDemoDispatch.volume =
      getAudioVolume c5bDemoStorage (stripExt (lastComponent c5bDemoDispatch.path)) *
        c5bDemoStorage.globalVolume ∧
      0 ≤ c5bDemoDispatch.volume ∧ c5bDemoDispatch.volume ≤ 1) ∧
    ((giftFinalHandler c5bDemoStorage (fun k => k) c5DemoEvent).dispatches.map
      Dispatch.volume) = [1/5] :=
  ⟨volume_composition_amended.1 c5bDemoStorage "x" 7,
   volume_composition_amended.2.1 c5bDemoStorage (fun k => k) c5DemoEvent c5bDemoDispatch
     (by
       intro pr hpr
       have hx : pr = ("x", 1/2) := by simpa [c5bDemoStorage] using hpr
       rw [hx]
       norm_num)
     (by norm_num : (0:ℚ) ≤ 2/5) (by norm_num : (2:ℚ)/5 ≤ 1) c5bDemoDispatch_mem,
   volume_composition_amended.2.2⟩

/-! ## C7 — rate limiting -/

theorem rateLimitStep_none (t : ℤ) :
    rateLimitStep none t = (true, some { count := 1, resetTime := t + 10000 }) := rfl

theorem rateLimitStep_reset (r : RateRecord) (t : ℤ) (h : t > r.resetTime) :
    rateLimitStep (some r) t = (true, some { count := 1, resetTime := t + 10000 }) := by
  simp [rateLimitStep, h]

theorem rateLimitStep_live_over (r : RateRecord) (t : ℤ)
    (h1 : ¬ t > r.resetTime) (h2 : r.count + 1 > 100) :
    rateLimitStep (some r) t = (false, some { count := r.count + 1, resetTime := r.resetTime }) := by
  simp only [rateLimitStep, if_neg h1]
  rw [if_pos h2]

theorem rateLimitStep_live_ok (r : RateRecord) (t : ℤ)
    (h1 : ¬ t > r.resetTime) (h2 : ¬ r.count + 1 > 100) :
    rateLimitStep (some r) t = (true, some { count := r.count + 1, resetTime := r.resetTime }) := by
  simp only [rateLimitStep, if_neg h1]
  rw [if_neg h2]

/-- Request times refuting the rolling-window reading: one request at
`t = 0` opens the fixed window `[0, 10000]`; 99 requests at `t = 9999`
fill it; at `t = 10001` the window has expired, so 100 more requests are
served immediately. -/
def c7DemoTimes : List ℤ := 0 :: (List.replicate 99 9999 ++ List.replicate 100 10001)

set_option maxRecDepth 8000 in
/-- C7 counterexample: the middleware is a fixed-window counter, not a
rolling-window one — 199 requests with timestamps inside the 2 ms span
`[9999, 10001]` (contained in any rolling 10-second window around them)
are all served, far above the claimed bound of 100. -/
theorem rate_limit_counterexample :
    ((c7DemoTimes.zip (runRateLimiter none c7DemoTimes)).countP
      (fun pr => decide (9999 ≤ pr.1) && decide (pr.1 ≤ 10001) && pr.2)) = 199 ∧
    100 < 199 := by
  constructor
  · decide
  · decide

/-- Invariant for the fixed-window bound: the running served-count of the
current window is `min count 100`, and no closed window exceeded 100. -/
theorem rlWindowMax_bound :
    ∀ (ts : List ℤ) (st : Option RateRecord) (cur best : ℕ),
      (st = none → cur = 0) →
      (∀ r : RateRecord, st = some r → cur = min r.count 100) →
      best ≤ 100 → cur ≤ 100 →
      rlWindowMax st cur best ts ≤ 100 := by
  intro ts
  induction ts with
  | nil =>
    intro st cur best _ _ hb hc
    simp only [rlWindowMax]
    omega
  | cons t ts ih =>
    intro st cur best hnone hsome hb hc
    cases st with
    | none =>
      simp only [rlWindowMax]
      rw [rateLimitStep_none]
      exact ih (some { count := 1, resetTime := t + 10000 }) 1 (max best cur)
        (fun h => Option.noConfusion h)
        (by rintro r2 hr2; cases hr2; rfl)
        (by omega) (by omega)
    | some r =>
      simp only [rlWindowMax]
      by_cases hreset : t > r.resetTime
      · rw [if_pos hreset, rateLimitStep_reset r t hreset]
        exact ih (some { count := 1, resetTime := t + 10000 }) 1 (max best cur)
          (fun h => Option.noConfusion h)
          (by rintro r2 hr2; cases hr2; rfl)
          (by omega) (by omega)
      · rw [if_neg hreset]
        have hcur := hsome r rfl
        by_cases hover : r.count + 1 > 100
        · rw [rateLimitStep_live_over r t hreset hover]
          exact ih (some { count := r.count + 1, resetTime := r.resetTime }) cur best
            (fun h => Option.noConfusion h)
            (by rintro r2 hr2; cases hr2; dsimp only; omega)
            hb hc
        · rw [rateLimitStep_live_ok r t hreset hover]
          exact ih (some { count := r.count + 1, resetTime := r.resetTime }) (cur + 1) best
            (fun h => Option.noConfusion h)
            (by rintro r2 hr2; cases hr2; dsimp only; omega)
            hb (by omega)

/-- C7 (amended): the limiter counts per fixed 10-second window anchored
at the first request after the previous window expired: within any single
fixed window at most 100 requests are served, and a request whose
incremented count exceeds 100 inside a live window receives the 429
response.  The rolling-window bound of the claim fails (see the
counterexample: 199 served within a 2 ms span across a window boundary). -/
theorem rate_limit_fixed_window :
    (∀ times : List ℤ, rlWindowMax none 0 0 times ≤ 100)
    ∧ (∀ (r : RateRecord) (now : ℤ), ¬ now > r.resetTime → 100 < r.count + 1 →
      (rateLimitStep (some r) now).1 = false) := by
  constructor
  · intro times
    exact rlWindowMax_bound times none 0 0 (fun _ => rfl)
      (by rintro r hr; cases hr) (by omega) (by omega)
  · intro r now hreset hover
    rw [rateLimitStep_live_over r now hreset hover]

/-- Witness for C7 (amended): the bound on the counterexample trace, and a
concrete 429 at the 101st request of a live window. -/
theorem rate_limit_fixed_window_witness :
    rlWindowMax none 0 0 c7DemoTimes ≤ 100 ∧
    (rateLimitStep (some { count := 100, resetTime := 10000 }) 5).1 = false :=
  ⟨rate_limit_fixed_window.1 c7DemoTimes,
   rate_limit_fixed_window.2 { count := 100, resetTime := 10000 } 5
     (by decide) (by decide)⟩
